import Mathlib

/-!
Shallow embedding of `server_session_media.go` (gortsplib server session
media transport layer): per-media transport activation, ingress
demultiplexing, egress write strategies, and SSRC correlation.

Modelling conventions:
- Byte payloads are `List Nat`.
- The RTP / RTCP packet codecs (pion libraries) are external collaborators;
  read functions take the unmarshal function as an explicit parameter
  (`rtpUnmarshal`, `rtcpUnmarshal`), so theorems quantify over any codec.
- Session-shared mutable state (`bytesSent`, `bytesReceived`,
  `udpLastPacketTime`) is passed explicitly; the two byte counters are Go
  `uint64` values updated with wrap-around, modelled as `Nat` reduced
  `% 2 ^ 64`.
- Observable side effects (error reporting, pipeline dispatch, RTCP
  observer callbacks, network writes) are returned as an ordered event
  list.
- `time.Time` is modelled as `Int` (Unix seconds), supplied as `now`.
-/

namespace Gortsplib

/-- Modelled from the spec: the maximum UDP payload size constant that
bounds the ingress size guard; it is defined outside the source file under
analysis. Its exact value is irrelevant to the claims. -/
def udpMaxPayloadSize : Nat := 1472

/-- An RTP data packet as this layer uses it: only the payload-type field
is inspected (`pkt.PayloadType` in the source). -/
structure RtpPacket where
  payloadType : Nat
deriving DecidableEq, Repr

/-- An RTCP sub-packet as this layer uses it: either a sender report
carrying an SSRC, or any other packet kind (opaque here). -/
inductive RtcpPacket
  | senderReport (ssrc : Nat)
  | other (tag : Nat)
deriving DecidableEq, Repr

/-- A `serverSessionFormat` as seen by this layer: keyed by payload type;
its `rtcpReceiver.SenderSSRC()` result is modelled as `senderSSRC`
(`none` when the receiver has not yet observed a sender SSRC). -/
structure serverSessionFormat where
  payloadType : Nat
  senderSSRC : Option Nat
deriving DecidableEq, Repr

/-- The per-media state of `serverSessionMedia` needed by the claims:
the `formats` map (a `map[uint8]*serverSessionFormat` in Go, modelled as a
list with distinct payload-type keys) and the interleaved base channel. -/
structure serverSessionMedia where
  formats : List serverSessionFormat
  tcpChannel : Nat
deriving DecidableEq, Repr

/-- Session-shared counters referenced by `sm.ss`: cumulative sent and
received byte counters (`uint64`, wrap-around) and the UDP liveness
timestamp (`udpLastPacketTime`, Unix seconds). -/
structure ServerSession where
  bytesSent : Nat
  bytesReceived : Nat
  udpLastPacketTime : Int
deriving DecidableEq, Repr

/-- Which shared UDP listener a write or registration targets. -/
inductive UdpChan
  | rtp
  | rtcp
deriving DecidableEq, Repr

/-- The typed decode errors surfaced through `onDecodeError`, mirroring
the `liberrors` values used in the source; `codecError` stands for an
error value produced by the external packet codec itself. -/
inductive DecodeError
  | rtcpPacketTooBigUDP
  | rtpPacketTooBigUDP
  | rtcpPacketTooBig (l : Nat) (max : Nat)
  | rtpUnknownPayloadType (payloadType : Nat)
  | codecError
deriving DecidableEq, Repr

/-- Observable side effects of the ingress and egress paths, in program
order: error reporting, per-format pipeline dispatch (`readRTPUDP` /
`readRTPTCP`, timestamp present only on the UDP variant), sender-report
dispatch (`rtcpReceiver.ProcessSenderReport`), the RTCP observer callback
(`onPacketRTCP`), counter increments, and transport writes. -/
inductive Event
  | decodeError (e : DecodeError)
  | pipelineData (payloadType : Nat) (t : Option Int)
  | pipelineReport (payloadType : Nat) (ssrc : Nat) (t : Int)
  | onPacketRTCP (pkt : RtcpPacket)
  | addBytesSent (n : Nat)
  | udpWrite (ch : UdpChan) (payload : List Nat)
  | setWriteDeadline
  | tcpFrameWrite (channel : Nat) (payload : List Nat)
deriving DecidableEq, Repr

/-- Identifies which read callback a registration installs. -/
inductive HandlerId
  | hReadRTCPUDPPlay
  | hReadRTPUDPRecord
  | hReadRTCPUDPRecord
  | hReadRTPTCPPlay
  | hReadRTCPTCPPlay
  | hReadRTPTCPRecord
  | hReadRTCPTCPRecord
deriving DecidableEq, Repr

/-- External actions performed by `start()`, in program order: starting a
format pipeline, a priming UDP write, a UDP listener client registration
(`addClient`), or an interleaved channel binding
(`tcpCallbackByChannel`). -/
inductive StartAction
  | startFormat (payloadType : Nat)
  | udpWrite (ch : UdpChan) (payload : List Nat)
  | addClient (ch : UdpChan) (h : HandlerId)
  | bindTCPChannel (channel : Nat) (h : HandlerId)
deriving DecidableEq, Repr

/-- The negotiated transport (`*sm.ss.setuppedTransport`). -/
inductive Transport
  | udp
  | udpMulticast
  | tcp
deriving DecidableEq, Repr

/-- The session state values `start()` branches on (`sm.ss.state`);
`play` is the deliver role, `record` the ingest role. -/
inductive SessionState
  | prePlay
  | play
  | preRecord
  | record
deriving DecidableEq, Repr

/-- Modelled from the spec: the marshalled bytes of
`rtp.Packet{Header: rtp.Header{Version: 2}}` — an empty data packet; the
marshaller is the external packet codec. -/
def emptyRTPPacketBytes : List Nat :=
  [128, 0, 0, 0, 0, 0, 0, 0, 0, 0, 0, 0]

/-- Modelled from the spec: the marshalled bytes of
`rtcp.ReceiverReport{}` — an empty minimal control packet; the marshaller
is the external packet codec. -/
def emptyRTCPReceiverReportBytes : List Nat :=
  [128, 201, 0, 1, 0, 0, 0, 0]

/-- The external actions of `serverSessionMedia.start`, in program order.
Pipeline starts come first; then, per transport and state, the UDP
priming writes and `addClient` registrations, or the interleaved channel
bindings. The egress-strategy assignment selects among the
`writePacket*InQueue*` functions defined below and produces no external
action. -/
def start (sm : serverSessionMedia) (transport : Transport)
    (state : SessionState) : List StartAction :=
  sm.formats.map (fun sf => StartAction.startFormat sf.payloadType) ++
    match transport with
    | .udp =>
      if state = .play then
        [StartAction.addClient .rtcp .hReadRTCPUDPPlay]
      else
        [StartAction.udpWrite .rtp emptyRTPPacketBytes,
         StartAction.udpWrite .rtcp emptyRTCPReceiverReportBytes,
         StartAction.addClient .rtp .hReadRTPUDPRecord,
         StartAction.addClient .rtcp .hReadRTCPUDPRecord]
    | .udpMulticast => []
    | .tcp =>
      if state = .play then
        [StartAction.bindTCPChannel sm.tcpChannel .hReadRTPTCPPlay,
         StartAction.bindTCPChannel (sm.tcpChannel + 1) .hReadRTCPTCPPlay]
      else
        [StartAction.bindTCPChannel sm.tcpChannel .hReadRTPTCPRecord,
         StartAction.bindTCPChannel (sm.tcpChannel + 1) .hReadRTCPTCPRecord]

/-- `serverSessionMedia.findFormatWithSSRC`: linear scan of `formats` for
the first format whose receiver has observed the given sender SSRC. -/
def findFormatWithSSRC (formats : List serverSessionFormat) (ssrc : Nat) :
    Option serverSessionFormat :=
  formats.find? (fun format => format.senderSSRC == some ssrc)

/-- The `formats[pkt.PayloadType]` map lookup. -/
def lookupFormat (formats : List serverSessionFormat) (payloadType : Nat) :
    Option serverSessionFormat :=
  formats.find? (fun sf => sf.payloadType == payloadType)

/-- `serverSessionMedia.writePacketRTPInQueueUDP`: add the payload length
to `bytesSent` (atomic uint64, wrap-around), then write the payload to
the RTP write address through the shared UDP listener. `writeErr` is the
result of the external `udpRTPListener.write`, surfaced as-is. -/
def writePacketRTPInQueueUDP (writeErr : Option Unit) (st : ServerSession)
    (payload : List Nat) : Option Unit × ServerSession × List Event :=
  (writeErr,
   { st with bytesSent := (st.bytesSent + payload.length) % 2 ^ 64 },
   [Event.addBytesSent payload.length, Event.udpWrite .rtp payload])

/-- `serverSessionMedia.writePacketRTCPInQueueUDP`: as the RTP variant,
targeting the RTCP listener and write address. -/
def writePacketRTCPInQueueUDP (writeErr : Option Unit) (st : ServerSession)
    (payload : List Nat) : Option Unit × ServerSession × List Event :=
  (writeErr,
   { st with bytesSent := (st.bytesSent + payload.length) % 2 ^ 64 },
   [Event.addBytesSent payload.length, Event.udpWrite .rtcp payload])

/-- `serverSessionMedia.writePacketRTPInQueueTCP`: add the payload length
to `bytesSent`, set a fresh write deadline, then frame the payload on the
data channel and write it through the connection. `writeErr` is the
result of the external `WriteInterleavedFrame`. -/
def writePacketRTPInQueueTCP (sm : serverSessionMedia)
    (writeErr : Option Unit) (st : ServerSession) (payload : List Nat) :
    Option Unit × ServerSession × List Event :=
  (writeErr,
   { st with bytesSent := (st.bytesSent + payload.length) % 2 ^ 64 },
   [Event.addBytesSent payload.length, Event.setWriteDeadline,
    Event.tcpFrameWrite sm.tcpChannel payload])

/-- `serverSessionMedia.writePacketRTCPInQueueTCP`: as the RTP variant,
on the control channel `tcpChannel + 1`. -/
def writePacketRTCPInQueueTCP (sm : serverSessionMedia)
    (writeErr : Option Unit) (st : ServerSession) (payload : List Nat) :
    Option Unit × ServerSession × List Event :=
  (writeErr,
   { st with bytesSent := (st.bytesSent + payload.length) % 2 ^ 64 },
   [Event.addBytesSent payload.length, Event.setWriteDeadline,
    Event.tcpFrameWrite (sm.tcpChannel + 1) payload])

/-- `serverSessionMedia.readRTCPUDPPlay`: count the datagram, apply the
truncation-sentinel size guard, decode via the external RTCP codec,
refresh the liveness timestamp, and forward every sub-packet to the
RTCP observer. -/
def readRTCPUDPPlay (rtcpUnmarshal : List Nat → Option (List RtcpPacket))
    (now : Int) (st : ServerSession) (payload : List Nat) :
    Bool × ServerSession × List Event :=
  let plen := payload.length
  let st := { st with bytesReceived := (st.bytesReceived + plen) % 2 ^ 64 }
  if plen = udpMaxPayloadSize + 1 then
    (false, st, [Event.decodeError .rtcpPacketTooBigUDP])
  else
    match rtcpUnmarshal payload with
    | none => (false, st, [Event.decodeError .codecError])
    | some packets =>
      let st := { st with udpLastPacketTime := now }
      (true, st, packets.map Event.onPacketRTCP)

/-- `serverSessionMedia.readRTPUDPRecord`: count the datagram, apply the
size guard, decode via the external RTP codec, look up the payload type
in `formats` (failing with `UnknownPayloadType` when absent), refresh the
liveness timestamp, and dispatch to that format's pipeline with the
current time. -/
def readRTPUDPRecord (rtpUnmarshal : List Nat → Option RtpPacket)
    (sm : serverSessionMedia) (now : Int) (st : ServerSession)
    (payload : List Nat) : Bool × ServerSession × List Event :=
  let plen := payload.length
  let st := { st with bytesReceived := (st.bytesReceived + plen) % 2 ^ 64 }
  if plen = udpMaxPayloadSize + 1 then
    (false, st, [Event.decodeError .rtpPacketTooBigUDP])
  else
    match rtpUnmarshal payload with
    | none => (false, st, [Event.decodeError .codecError])
    | some pkt =>
      match lookupFormat sm.formats pkt.payloadType with
      | none =>
        (false, st,
         [Event.decodeError (.rtpUnknownPayloadType pkt.payloadType)])
      | some _ =>
        let st := { st with udpLastPacketTime := now }
        (true, st, [Event.pipelineData pkt.payloadType (some now)])

/-- The routing of one decoded RTCP sub-packet on an ingest (record)
control path: a sender report is correlated through
`findFormatWithSSRC` and, on a match, fed to that format's receiver;
every sub-packet is then forwarded to the RTCP observer. -/
def routeRTCPRecord (formats : List serverSessionFormat) (now : Int)
    (pkt : RtcpPacket) : List Event :=
  (match pkt with
   | .senderReport ssrc =>
     match findFormatWithSSRC formats ssrc with
     | some format => [Event.pipelineReport format.payloadType ssrc now]
     | none => []
   | .other _ => []) ++ [Event.onPacketRTCP pkt]

/-- `serverSessionMedia.readRTCPUDPRecord`: count the datagram, apply the
size guard, decode via the external RTCP codec, refresh the liveness
timestamp, and route every sub-packet (sender-report correlation plus the
RTCP observer). -/
def readRTCPUDPRecord (rtcpUnmarshal : List Nat → Option (List RtcpPacket))
    (sm : serverSessionMedia) (now : Int) (st : ServerSession)
    (payload : List Nat) : Bool × ServerSession × List Event :=
  let plen := payload.length
  let st := { st with bytesReceived := (st.bytesReceived + plen) % 2 ^ 64 }
  if plen = udpMaxPayloadSize + 1 then
    (false, st, [Event.decodeError .rtcpPacketTooBigUDP])
  else
    match rtcpUnmarshal payload with
    | none => (false, st, [Event.decodeError .codecError])
    | some packets =>
      let st := { st with udpLastPacketTime := now }
      (true, st, packets.flatMap (routeRTCPRecord sm.formats now))

/-- `serverSessionMedia.readRTPTCPPlay`: unconditionally fails, with no
side effect. -/
def readRTPTCPPlay (st : ServerSession) (_payload : List Nat) :
    Bool × ServerSession × List Event :=
  (false, st, [])

/-- `serverSessionMedia.readRTCPTCPPlay`: reject framed payloads larger
than the maximum payload size, decode via the external RTCP codec, and
forward every sub-packet to the RTCP observer. No counter or liveness
update. -/
def readRTCPTCPPlay (rtcpUnmarshal : List Nat → Option (List RtcpPacket))
    (st : ServerSession) (payload : List Nat) :
    Bool × ServerSession × List Event :=
  if payload.length > udpMaxPayloadSize then
    (false, st,
     [Event.decodeError (.rtcpPacketTooBig payload.length udpMaxPayloadSize)])
  else
    match rtcpUnmarshal payload with
    | none => (false, st, [Event.decodeError .codecError])
    | some packets => (true, st, packets.map Event.onPacketRTCP)

/-- `serverSessionMedia.readRTPTCPRecord`: decode via the external RTP
codec (no size guard), look up the payload type in `formats`, and
dispatch to that format's pipeline without a timestamp. No counter or
liveness update. -/
def readRTPTCPRecord (rtpUnmarshal : List Nat → Option RtpPacket)
    (sm : serverSessionMedia) (st : ServerSession) (payload : List Nat) :
    Bool × ServerSession × List Event :=
  match rtpUnmarshal payload with
  | none => (false, st, [Event.decodeError .codecError])
  | some pkt =>
    match lookupFormat sm.formats pkt.payloadType with
    | none =>
      (false, st,
       [Event.decodeError (.rtpUnknownPayloadType pkt.payloadType)])
    | some _ => (true, st, [Event.pipelineData pkt.payloadType none])

/-- `serverSessionMedia.readRTCPTCPRecord`: reject framed payloads larger
than the maximum payload size, decode via the external RTCP codec, and
route every sub-packet (sender-report correlation plus the RTCP
observer). No counter or liveness update. -/
def readRTCPTCPRecord (rtcpUnmarshal : List Nat → Option (List RtcpPacket))
    (sm : serverSessionMedia) (now : Int) (st : ServerSession)
    (payload : List Nat) : Bool × ServerSession × List Event :=
  if payload.length > udpMaxPayloadSize then
    (false, st,
     [Event.decodeError (.rtcpPacketTooBig payload.length udpMaxPayloadSize)])
  else
    match rtcpUnmarshal payload with
    | none => (false, st, [Event.decodeError .codecError])
    | some packets =>
      (true, st, packets.flatMap (routeRTCPRecord sm.formats now))

/-- Repeated invocation of the UDP RTP write strategy over a sequence of
payloads, threading the session state. -/
def writeManyRTPUDP (st : ServerSession) : List (List Nat) → ServerSession
  | [] => st
  | p :: ps => writeManyRTPUDP (writePacketRTPInQueueUDP none st p).2.1 ps

/-- Repeated invocation of the UDP RTCP write strategy over a sequence of
payloads, threading the session state. -/
def writeManyRTCPUDP (st : ServerSession) : List (List Nat) → ServerSession
  | [] => st
  | p :: ps => writeManyRTCPUDP (writePacketRTCPInQueueUDP none st p).2.1 ps

/-- Total length of a sequence of payloads. -/
def sumLens (ps : List (List Nat)) : Nat :=
  (ps.map List.length).sum

/-- Recognizers over events and actions, used to state the claims. -/
def Event.isDecodeError : Event → Bool
  | .decodeError _ => true
  | _ => false

def Event.isPipelineData : Event → Bool
  | .pipelineData _ _ => true
  | _ => false

def Event.isOnPacketRTCP : Event → Bool
  | .onPacketRTCP _ => true
  | _ => false

def Event.isReportWith (ssrc : Nat) : Event → Bool
  | .pipelineReport _ s _ => s == ssrc
  | _ => false

def RtcpPacket.isSenderReportWith (ssrc : Nat) : RtcpPacket → Bool
  | .senderReport s => s == ssrc
  | _ => false

def StartAction.isUdpWrite : StartAction → Bool
  | .udpWrite _ _ => true
  | _ => false

def StartAction.isAddClient : StartAction → Bool
  | .addClient _ _ => true
  | _ => false

/-! Helper lemmas. -/

theorem writeManyRTPUDP_bytesSent (ps : List (List Nat)) :
    ∀ st : ServerSession, st.bytesSent < 2 ^ 64 →
      (writeManyRTPUDP st ps).bytesSent =
        (st.bytesSent + sumLens ps) % 2 ^ 64 := by
  induction ps with
  | nil =>
    intro st h
    simp [writeManyRTPUDP, sumLens]
    exact (Nat.mod_eq_of_lt h).symm
  | cons p ps ih =>
    intro st h
    rw [writeManyRTPUDP, writePacketRTPInQueueUDP]
    rw [ih _ (Nat.mod_lt _ (by norm_num))]
    simp only [Nat.mod_add_mod]
    simp [sumLens, Nat.add_assoc]

theorem writeManyRTCPUDP_bytesSent (ps : List (List Nat)) :
    ∀ st : ServerSession, st.bytesSent < 2 ^ 64 →
      (writeManyRTCPUDP st ps).bytesSent =
        (st.bytesSent + sumLens ps) % 2 ^ 64 := by
  induction ps with
  | nil =>
    intro st h
    simp [writeManyRTCPUDP, sumLens]
    exact (Nat.mod_eq_of_lt h).symm
  | cons p ps ih =>
    intro st h
    rw [writeManyRTCPUDP, writePacketRTCPInQueueUDP]
    rw [ih _ (Nat.mod_lt _ (by norm_num))]
    simp only [Nat.mod_add_mod]
    simp [sumLens, Nat.add_assoc]

theorem routeRTCPRecord_filter_onPacketRTCP
    (formats : List serverSessionFormat) (now : Int)
    (packets : List RtcpPacket) :
    (packets.flatMap (routeRTCPRecord formats now)).filter
        Event.isOnPacketRTCP = packets.map Event.onPacketRTCP := by
  induction packets with
  | nil => rfl
  | cons pkt ps ih =>
    have hpkt : (routeRTCPRecord formats now pkt).filter
        Event.isOnPacketRTCP = [Event.onPacketRTCP pkt] := by
      cases pkt with
      | senderReport ssrc =>
        rcases h : findFormatWithSSRC formats ssrc with _ | sf <;>
          simp [routeRTCPRecord, h, Event.isOnPacketRTCP]
      | other tag => simp [routeRTCPRecord, Event.isOnPacketRTCP]
    rw [List.flatMap_cons, List.filter_append, hpkt, ih]
    rfl

theorem routeRTCPRecord_filter_reportWith_some
    (formats : List serverSessionFormat) (now : Int) (ssrc : Nat)
    (sf : serverSessionFormat)
    (h : findFormatWithSSRC formats ssrc = some sf)
    (packets : List RtcpPacket) :
    ((packets.flatMap (routeRTCPRecord formats now)).filter
        (Event.isReportWith ssrc)).length
      = (packets.filter (RtcpPacket.isSenderReportWith ssrc)).length := by
  induction packets with
  | nil => rfl
  | cons pkt ps ih =>
    rw [List.flatMap_cons, List.filter_append, List.length_append, ih,
      List.filter_cons]
    cases pkt with
    | senderReport s =>
      by_cases hs : s = ssrc
      · subst hs
        simp [routeRTCPRecord, h, Event.isReportWith,
          RtcpPacket.isSenderReportWith, Nat.add_comm]
      · rcases hfs : findFormatWithSSRC formats s with _ | sf2 <;>
          simp [routeRTCPRecord, hfs, Event.isReportWith,
            RtcpPacket.isSenderReportWith, hs]
    | other tag =>
      simp [routeRTCPRecord, Event.isReportWith,
        RtcpPacket.isSenderReportWith]

theorem routeRTCPRecord_filter_reportWith_none
    (formats : List serverSessionFormat) (now : Int) (ssrc : Nat)
    (h : findFormatWithSSRC formats ssrc = none)
    (packets : List RtcpPacket) :
    (packets.flatMap (routeRTCPRecord formats now)).filter
        (Event.isReportWith ssrc) = [] := by
  induction packets with
  | nil => rfl
  | cons pkt ps ih =>
    rw [List.flatMap_cons, List.filter_append, ih, List.append_nil]
    cases pkt with
    | senderReport s =>
      by_cases hs : s = ssrc
      · subst hs
        simp [routeRTCPRecord, h, Event.isReportWith]
      · rcases hfs : findFormatWithSSRC formats s with _ | sf2 <;>
          simp [routeRTCPRecord, hfs, Event.isReportWith, hs]
    | other tag => simp [routeRTCPRecord, Event.isReportWith]

theorem findFormatWithSSRC_eq_some_of_mem
    (formats : List serverSessionFormat) (ssrc : Nat)
    (h : ∃ sf ∈ formats, sf.senderSSRC = some ssrc) :
    ∃ sf, findFormatWithSSRC formats ssrc = some sf ∧
      sf.senderSSRC = some ssrc := by
  obtain ⟨sf, hmem, hssrc⟩ := h
  have hsome : (formats.find? (fun f => f.senderSSRC == some ssrc)).isSome
      := by
    rw [List.find?_isSome]
    exact ⟨sf, hmem, by simp [hssrc]⟩
  obtain ⟨sf2, hsf2⟩ := Option.isSome_iff_exists.mp hsome
  refine ⟨sf2, hsf2, ?_⟩
  have hp := List.find?_some hsf2
  simpa using hp

theorem findFormatWithSSRC_eq_none_of_forall
    (formats : List serverSessionFormat) (ssrc : Nat)
    (h : ∀ sf ∈ formats, sf.senderSSRC ≠ some ssrc) :
    findFormatWithSSRC formats ssrc = none := by
  unfold findFormatWithSSRC
  rw [List.find?_eq_none]
  intro x hx
  simp [h x hx]

theorem filter_startFormat_map (p : StartAction → Bool)
    (hp : ∀ n, p (StartAction.startFormat n) = false)
    (fs : List serverSessionFormat) :
    (fs.map (fun sf => StartAction.startFormat sf.payloadType)).filter p
      = [] := by
  induction fs with
  | nil => rfl
  | cons f fs ih => simp [List.filter_cons, hp, ih]

/-! Claim theorems. -/

/-- C1 counterexample: for a UDP-unicast unit, `start` in the deliver
role (play) transmits no packet at all, and `start` in the ingest role
(record) does transmit priming packets — the opposite of the claim on
both counts. -/
theorem start_udp_play_sends_nothing :
    (start ⟨[], 0⟩ .udp .play).filter StartAction.isUdpWrite = [] ∧
      (start ⟨[], 0⟩ .udp .record).filter StartAction.isUdpWrite ≠ [] := by
  decide

/-- C1 amended: for a UDP-unicast unit, `start` in the ingest role
(record) transmits exactly one empty data packet and one empty minimal
control packet to the destinations, and only then registers inbound
callbacks for both channels (every transmission precedes every
registration); in the deliver role (play) it transmits nothing and
registers only the control-channel inbound callback. -/
theorem start_udp_priming_by_role (sm : serverSessionMedia) :
    ((start sm .udp .play).filter StartAction.isUdpWrite = [] ∧
      (start sm .udp .play).filter StartAction.isAddClient =
        [StartAction.addClient .rtcp .hReadRTCPUDPPlay]) ∧
    ((start sm .udp .record).filter StartAction.isUdpWrite =
        [StartAction.udpWrite .rtp emptyRTPPacketBytes,
         StartAction.udpWrite .rtcp emptyRTCPReceiverReportBytes] ∧
      (start sm .udp .record).filter StartAction.isAddClient =
        [StartAction.addClient .rtp .hReadRTPUDPRecord,
         StartAction.addClient .rtcp .hReadRTCPUDPRecord] ∧
      ∃ pre,
        start sm .udp .record =
          pre ++
            [StartAction.udpWrite .rtp emptyRTPPacketBytes,
             StartAction.udpWrite .rtcp emptyRTCPReceiverReportBytes,
             StartAction.addClient .rtp .hReadRTPUDPRecord,
             StartAction.addClient .rtcp .hReadRTCPUDPRecord] ∧
          pre.filter StartAction.isUdpWrite = [] ∧
          pre.filter StartAction.isAddClient = []) := by
  have h1 := filter_startFormat_map StartAction.isUdpWrite
    (fun _ => rfl) sm.formats
  have h2 := filter_startFormat_map StartAction.isAddClient
    (fun _ => rfl) sm.formats
  refine ⟨⟨?_, ?_⟩, ?_, ?_, ?_⟩
  · simp [start, List.filter_append, h1, List.filter_cons,
      StartAction.isUdpWrite]
  · simp [start, List.filter_append, h2, List.filter_cons,
      StartAction.isAddClient]
  · simp [start, List.filter_append, h1, List.filter_cons,
      StartAction.isUdpWrite]
  · simp [start, List.filter_append, h2, List.filter_cons,
      StartAction.isAddClient]
  · exact ⟨sm.formats.map (fun sf => StartAction.startFormat sf.payloadType),
      by simp [start], h1, h2⟩

/-- C2 counterexample: the interleaved deliver-role control ingress does
not add the payload length to the received-byte counter (the counter
stays at 0 after a 3-byte payload). -/
theorem readRTCPTCPPlay_no_received_count :
    (readRTCPTCPPlay (fun _ => none) ⟨0, 0, 0⟩
        [0, 1, 2]).2.1.bytesReceived = 0 ∧
      ([0, 1, 2] : List Nat).length = 3 ∧
      (0 : Nat) ≠ (0 + 3) % 2 ^ 64 := by
  refine ⟨rfl, rfl, by decide⟩

/-- C2 amended: the three UDP ingress entry points add the datagram
length to the received-byte counter (uint64 wrap-around) on every input,
whether the read succeeds or fails; the four interleaved ingress entry
points leave the counter unchanged on every input. -/
theorem received_counter_udp_only
    (fRtcp : List Nat → Option (List RtcpPacket))
    (fRtp : List Nat → Option RtpPacket) (sm : serverSessionMedia)
    (now : Int) (st : ServerSession) (payload : List Nat) :
    (readRTCPUDPPlay fRtcp now st payload).2.1.bytesReceived =
      (st.bytesReceived + payload.length) % 2 ^ 64 ∧
    (readRTPUDPRecord fRtp sm now st payload).2.1.bytesReceived =
      (st.bytesReceived + payload.length) % 2 ^ 64 ∧
    (readRTCPUDPRecord fRtcp sm now st payload).2.1.bytesReceived =
      (st.bytesReceived + payload.length) % 2 ^ 64 ∧
    (readRTPTCPPlay st payload).2.1.bytesReceived = st.bytesReceived ∧
    (readRTCPTCPPlay fRtcp st payload).2.1.bytesReceived =
      st.bytesReceived ∧
    (readRTPTCPRecord fRtp sm st payload).2.1.bytesReceived =
      st.bytesReceived ∧
    (readRTCPTCPRecord fRtcp sm now st payload).2.1.bytesReceived =
      st.bytesReceived := by
  refine ⟨?_, ?_, ?_, rfl, ?_, ?_, ?_⟩
  · by_cases hlen : payload.length = udpMaxPayloadSize + 1
    · simp [readRTCPUDPPlay, hlen]
    · rcases hdec : fRtcp payload with _ | pkts <;>
        simp [readRTCPUDPPlay, hlen, hdec]
  · by_cases hlen : payload.length = udpMaxPayloadSize + 1
    · simp [readRTPUDPRecord, hlen]
    · rcases hdec : fRtp payload with _ | pkt
      · simp [readRTPUDPRecord, hlen, hdec]
      · rcases hfmt : lookupFormat sm.formats pkt.payloadType with _ | sf <;>
          simp [readRTPUDPRecord, hlen, hdec, hfmt]
  · by_cases hlen : payload.length = udpMaxPayloadSize + 1
    · simp [readRTCPUDPRecord, hlen]
    · rcases hdec : fRtcp payload with _ | pkts <;>
        simp [readRTCPUDPRecord, hlen, hdec]
  · by_cases hlen : payload.length > udpMaxPayloadSize
    · simp [readRTCPTCPPlay, hlen]
    · rcases hdec : fRtcp payload with _ | pkts <;>
        simp [readRTCPTCPPlay, hlen, hdec]
  · rcases hdec : fRtp payload with _ | pkt
    · simp [readRTPTCPRecord, hdec]
    · rcases hfmt : lookupFormat sm.formats pkt.payloadType with _ | sf <;>
        simp [readRTPTCPRecord, hdec, hfmt]
  · by_cases hlen : payload.length > udpMaxPayloadSize
    · simp [readRTCPTCPRecord, hlen]
    · rcases hdec : fRtcp payload with _ | pkts <;>
        simp [readRTCPTCPRecord, hlen, hdec]

/-- C6 counterexample: an oversized framed payload on the deliver-role
interleaved data channel produces no error report at all (the claim
requires a `PacketTooLarge` report on every ingress channel). -/
theorem readRTPTCPPlay_oversize_unreported :
    (List.replicate 1473 (0 : Nat)).length > udpMaxPayloadSize ∧
      (readRTPTCPPlay ⟨0, 0, 0⟩ (List.replicate 1473 0)).2.2 = [] := by
  refine ⟨by rw [List.length_replicate]; decide, rfl⟩

/-- C6 amended: over the interleaved transport, a framed payload longer
than the maximum payload size arriving on the control channel (either
role) is reported as `PacketTooLarge` and the read fails with no other
side effect; the deliver-role data channel fails every read without
reporting anything (the ingest-role data channel applies no size
check). -/
theorem tcp_control_oversize_rejected
    (fRtcp : List Nat → Option (List RtcpPacket)) (sm : serverSessionMedia)
    (now : Int) (st : ServerSession) (payload : List Nat)
    (hlen : payload.length > udpMaxPayloadSize) :
    readRTCPTCPPlay fRtcp st payload =
      (false, st,
       [Event.decodeError
          (.rtcpPacketTooBig payload.length udpMaxPayloadSize)]) ∧
    readRTCPTCPRecord fRtcp sm now st payload =
      (false, st,
       [Event.decodeError
          (.rtcpPacketTooBig payload.length udpMaxPayloadSize)]) ∧
    (readRTPTCPPlay st payload).1 = false ∧
    (readRTPTCPPlay st payload).2.2 = [] := by
  unfold readRTCPTCPPlay readRTCPTCPRecord readRTPTCPPlay
  simp [hlen]

/-- Witness for C6 at a concrete 1473-byte framed payload. -/
theorem tcp_control_oversize_rejected_witness :
    (readRTCPTCPPlay (fun _ => none) ⟨0, 0, 0⟩
        (List.replicate 1473 0)).1 = false := by
  rw [(tcp_control_oversize_rejected (fun _ => none) ⟨[], 0⟩ 0 ⟨0, 0, 0⟩
    (List.replicate 1473 0) (by rw [List.length_replicate]; decide)).1]

/-- C9 counterexample: a UDP data-channel ingress read that passes the
size guard and decodes successfully, but whose payload type is not in
`formats`, leaves the liveness timestamp unchanged (the claim requires
it to be set to the current time). -/
theorem readRTPUDPRecord_no_timestamp_on_unknown_pt :
    ((fun _ => some ⟨96⟩ : List Nat → Option RtpPacket)
        (List.replicate 12 0) = some ⟨96⟩) ∧
      (List.replicate 12 (0 : Nat)).length ≠ udpMaxPayloadSize + 1 ∧
      (readRTPUDPRecord (fun _ => some ⟨96⟩) ⟨[], 0⟩ 5 ⟨0, 0, 0⟩
          (List.replicate 12 0)).2.1.udpLastPacketTime = 0 ∧
      (0 : Int) ≠ 5 := by
  refine ⟨rfl, by decide, rfl, by decide⟩

/-- C9 amended: every UDP ingress read sets the liveness timestamp to
the current time exactly when it returns `true` (passes the size guard,
decodes, and — on the data channel — finds a registered payload type)
and leaves it unchanged when it returns `false`; no interleaved ingress
read ever modifies it. -/
theorem liveness_timestamp_updates
    (fRtcp : List Nat → Option (List RtcpPacket))
    (fRtp : List Nat → Option RtpPacket) (sm : serverSessionMedia)
    (now : Int) (st : ServerSession) (payload : List Nat) :
    (readRTCPUDPPlay fRtcp now st payload).2.1.udpLastPacketTime =
      (if (readRTCPUDPPlay fRtcp now st payload).1 then now
       else st.udpLastPacketTime) ∧
    (readRTPUDPRecord fRtp sm now st payload).2.1.udpLastPacketTime =
      (if (readRTPUDPRecord fRtp sm now st payload).1 then now
       else st.udpLastPacketTime) ∧
    (readRTCPUDPRecord fRtcp sm now st payload).2.1.udpLastPacketTime =
      (if (readRTCPUDPRecord fRtcp sm now st payload).1 then now
       else st.udpLastPacketTime) ∧
    (readRTPTCPPlay st payload).2.1.udpLastPacketTime =
      st.udpLastPacketTime ∧
    (readRTCPTCPPlay fRtcp st payload).2.1.udpLastPacketTime =
      st.udpLastPacketTime ∧
    (readRTPTCPRecord fRtp sm st payload).2.1.udpLastPacketTime =
      st.udpLastPacketTime ∧
    (readRTCPTCPRecord fRtcp sm now st payload).2.1.udpLastPacketTime =
      st.udpLastPacketTime := by
  refine ⟨?_, ?_, ?_, rfl, ?_, ?_, ?_⟩
  · by_cases hlen : payload.length = udpMaxPayloadSize + 1
    · simp [readRTCPUDPPlay, hlen]
    · rcases hdec : fRtcp payload with _ | pkts <;>
        simp [readRTCPUDPPlay, hlen, hdec]
  · by_cases hlen : payload.length = udpMaxPayloadSize + 1
    · simp [readRTPUDPRecord, hlen]
    · rcases hdec : fRtp payload with _ | pkt
      · simp [readRTPUDPRecord, hlen, hdec]
      · rcases hfmt : lookupFormat sm.formats pkt.payloadType with _ | sf <;>
          simp [readRTPUDPRecord, hlen, hdec, hfmt]
  · by_cases hlen : payload.length = udpMaxPayloadSize + 1
    · simp [readRTCPUDPRecord, hlen]
    · rcases hdec : fRtcp payload with _ | pkts <;>
        simp [readRTCPUDPRecord, hlen, hdec]
  · by_cases hlen : payload.length > udpMaxPayloadSize
    · simp [readRTCPTCPPlay, hlen]
    · rcases hdec : fRtcp payload with _ | pkts <;>
        simp [readRTCPTCPPlay, hlen, hdec]
  · rcases hdec : fRtp payload with _ | pkt
    · simp [readRTPTCPRecord, hdec]
    · rcases hfmt : lookupFormat sm.formats pkt.payloadType with _ | sf <;>
        simp [readRTPTCPRecord, hdec, hfmt]
  · by_cases hlen : payload.length > udpMaxPayloadSize
    · simp [readRTCPTCPRecord, hlen]
    · rcases hdec : fRtcp payload with _ | pkts <;>
        simp [readRTCPTCPRecord, hlen, hdec]

/-- C7: for every input payload and session state, the deliver-role
interleaved data-channel ingress handler `readRTPTCPPlay` returns
`false`, leaves the session state unchanged (no counter update), and
produces no event (no pipeline dispatch, no error report). -/
theorem readRTPTCPPlay_always_fails_silently (st : ServerSession)
    (payload : List Nat) :
    (readRTPTCPPlay st payload).1 = false ∧
      (readRTPTCPPlay st payload).2.1 = st ∧
      (readRTPTCPPlay st payload).2.2 = [] :=
  ⟨rfl, rfl, rfl⟩

/-- C4: on every UDP ingress read (RTCP in deliver role, RTP and RTCP in
ingest role), a datagram whose length is exactly `udpMaxPayloadSize + 1`
yields a `PacketTooLarge` decode error, the read returns `false`, and the
result does not depend on the packet codec (the codec is never invoked on
that datagram). -/
theorem udp_reads_reject_truncation_sentinel
    (fRtcp gRtcp : List Nat → Option (List RtcpPacket))
    (fRtp gRtp : List Nat → Option RtpPacket)
    (sm : serverSessionMedia) (now : Int) (st : ServerSession)
    (payload : List Nat)
    (hlen : payload.length = udpMaxPayloadSize + 1) :
    ((readRTCPUDPPlay fRtcp now st payload).1 = false ∧
      (readRTCPUDPPlay fRtcp now st payload).2.2 =
        [Event.decodeError .rtcpPacketTooBigUDP] ∧
      readRTCPUDPPlay fRtcp now st payload =
        readRTCPUDPPlay gRtcp now st payload) ∧
    ((readRTPUDPRecord fRtp sm now st payload).1 = false ∧
      (readRTPUDPRecord fRtp sm now st payload).2.2 =
        [Event.decodeError .rtpPacketTooBigUDP] ∧
      readRTPUDPRecord fRtp sm now st payload =
        readRTPUDPRecord gRtp sm now st payload) ∧
    ((readRTCPUDPRecord fRtcp sm now st payload).1 = false ∧
      (readRTCPUDPRecord fRtcp sm now st payload).2.2 =
        [Event.decodeError .rtcpPacketTooBigUDP] ∧
      readRTCPUDPRecord fRtcp sm now st payload =
        readRTCPUDPRecord gRtcp sm now st payload) := by
  unfold readRTCPUDPPlay readRTPUDPRecord readRTCPUDPRecord
  simp [hlen]

/-- Witness for C4 at a concrete 1473-byte datagram. -/
theorem udp_reads_reject_truncation_sentinel_witness :
    (readRTCPUDPPlay (fun _ => none) 0 ⟨0, 0, 0⟩
        (List.replicate 1473 0)).1 = false :=
  (udp_reads_reject_truncation_sentinel (fun _ => none) (fun _ => some [])
    (fun _ => none) (fun _ => some ⟨0⟩) ⟨[], 0⟩ 0 ⟨0, 0, 0⟩
    (List.replicate 1473 0)
    (by rw [List.length_replicate, udpMaxPayloadSize])).1.1

/-- C10: each of the four egress write strategies adds the payload length
to the sent-byte counter (uint64 wrap-around) as its first action, before
the transport write, and for every outcome of the underlying write — the
returned error is the underlying write's result as-is and the counter
update is identical whether the write succeeded or failed. -/
theorem write_strategies_count_before_write (sm : serverSessionMedia)
    (writeErr : Option Unit) (st : ServerSession) (payload : List Nat) :
    ((writePacketRTPInQueueUDP writeErr st payload).2.1.bytesSent =
        (st.bytesSent + payload.length) % 2 ^ 64 ∧
      (writePacketRTPInQueueUDP writeErr st payload).1 = writeErr ∧
      (writePacketRTPInQueueUDP writeErr st payload).2.2 =
        [Event.addBytesSent payload.length, Event.udpWrite .rtp payload] ∧
      (writePacketRTPInQueueUDP writeErr st payload).2.1 =
        (writePacketRTPInQueueUDP none st payload).2.1) ∧
    ((writePacketRTCPInQueueUDP writeErr st payload).2.1.bytesSent =
        (st.bytesSent + payload.length) % 2 ^ 64 ∧
      (writePacketRTCPInQueueUDP writeErr st payload).1 = writeErr ∧
      (writePacketRTCPInQueueUDP writeErr st payload).2.2 =
        [Event.addBytesSent payload.length, Event.udpWrite .rtcp payload] ∧
      (writePacketRTCPInQueueUDP writeErr st payload).2.1 =
        (writePacketRTCPInQueueUDP none st payload).2.1) ∧
    ((writePacketRTPInQueueTCP sm writeErr st payload).2.1.bytesSent =
        (st.bytesSent + payload.length) % 2 ^ 64 ∧
      (writePacketRTPInQueueTCP sm writeErr st payload).1 = writeErr ∧
      (writePacketRTPInQueueTCP sm writeErr st payload).2.2 =
        [Event.addBytesSent payload.length, Event.setWriteDeadline,
         Event.tcpFrameWrite sm.tcpChannel payload] ∧
      (writePacketRTPInQueueTCP sm writeErr st payload).2.1 =
        (writePacketRTPInQueueTCP sm none st payload).2.1) ∧
    ((writePacketRTCPInQueueTCP sm writeErr st payload).2.1.bytesSent =
        (st.bytesSent + payload.length) % 2 ^ 64 ∧
      (writePacketRTCPInQueueTCP sm writeErr st payload).1 = writeErr ∧
      (writePacketRTCPInQueueTCP sm writeErr st payload).2.2 =
        [Event.addBytesSent payload.length, Event.setWriteDeadline,
         Event.tcpFrameWrite (sm.tcpChannel + 1) payload] ∧
      (writePacketRTCPInQueueTCP sm writeErr st payload).2.1 =
        (writePacketRTCPInQueueTCP sm none st payload).2.1) :=
  ⟨⟨rfl, rfl, rfl, rfl⟩, ⟨rfl, rfl, rfl, rfl⟩,
   ⟨rfl, rfl, rfl, rfl⟩, ⟨rfl, rfl, rfl, rfl⟩⟩

/-- C8: a sequence of UDP write-strategy invocations (data or control)
with payloads of total size `sumLens ps`, started from a counter that
does not overflow, leaves the sent-byte counter at the initial value plus
the sum of the payload sizes; each single invocation adds exactly the
payload length (wrap-around) and its counter increment precedes the
write to the destination address in the emitted action order. -/
theorem udp_write_counter_sums (st : ServerSession) (ps : List (List Nat))
    (h : st.bytesSent + sumLens ps < 2 ^ 64) :
    (writeManyRTPUDP st ps).bytesSent = st.bytesSent + sumLens ps ∧
    (writeManyRTCPUDP st ps).bytesSent = st.bytesSent + sumLens ps ∧
    (∀ (writeErr : Option Unit) (p : List Nat),
      (writePacketRTPInQueueUDP writeErr st p).2.1.bytesSent =
        (st.bytesSent + p.length) % 2 ^ 64 ∧
      (writePacketRTPInQueueUDP writeErr st p).2.2 =
        [Event.addBytesSent p.length, Event.udpWrite .rtp p] ∧
      (writePacketRTCPInQueueUDP writeErr st p).2.1.bytesSent =
        (st.bytesSent + p.length) % 2 ^ 64 ∧
      (writePacketRTCPInQueueUDP writeErr st p).2.2 =
        [Event.addBytesSent p.length, Event.udpWrite .rtcp p]) := by
  have hlt : st.bytesSent < 2 ^ 64 :=
    Nat.lt_of_le_of_lt (Nat.le_add_right _ _) h
  refine ⟨?_, ?_, fun writeErr p => ⟨rfl, rfl, rfl, rfl⟩⟩
  · rw [writeManyRTPUDP_bytesSent ps st hlt, Nat.mod_eq_of_lt h]
  · rw [writeManyRTCPUDP_bytesSent ps st hlt, Nat.mod_eq_of_lt h]

/-- Witness for C8: two payloads of sizes 1 and 2 from a zero counter. -/
theorem udp_write_counter_sums_witness :
    (writeManyRTPUDP ⟨0, 0, 0⟩ [[0], [1, 2]]).bytesSent = 3 := by
  have h := (udp_write_counter_sums ⟨0, 0, 0⟩ [[0], [1, 2]]
    (by norm_num [sumLens])).1
  simpa [sumLens] using h

/-- C3: for a well-formed data packet routed through ingest-role ingress
(UDP with the size guard passed, or interleaved): when its payload type
is a key of `formats`, the read returns `true` and the event list holds
exactly one pipeline dispatch, keyed by that payload type (so exactly
that format's handler is invoked and no other); when the payload type is
absent from `formats`, `UnknownPayloadType` carrying that exact value is
reported, the read returns `false`, and no pipeline dispatch occurs. The
looked-up format is the one keyed by the packet's payload type. -/
theorem record_data_dispatch
    (fRtp : List Nat → Option RtpPacket) (sm : serverSessionMedia)
    (now : Int) (st : ServerSession) (payload : List Nat) (pkt : RtpPacket)
    (hlen : payload.length ≠ udpMaxPayloadSize + 1)
    (hdec : fRtp payload = some pkt) :
    ((∃ sf, lookupFormat sm.formats pkt.payloadType = some sf) →
      (readRTPUDPRecord fRtp sm now st payload).1 = true ∧
      (readRTPUDPRecord fRtp sm now st payload).2.2 =
        [Event.pipelineData pkt.payloadType (some now)] ∧
      (readRTPTCPRecord fRtp sm st payload).1 = true ∧
      (readRTPTCPRecord fRtp sm st payload).2.2 =
        [Event.pipelineData pkt.payloadType none]) ∧
    (lookupFormat sm.formats pkt.payloadType = none →
      (readRTPUDPRecord fRtp sm now st payload).1 = false ∧
      (readRTPUDPRecord fRtp sm now st payload).2.2 =
        [Event.decodeError (.rtpUnknownPayloadType pkt.payloadType)] ∧
      (readRTPTCPRecord fRtp sm st payload).1 = false ∧
      (readRTPTCPRecord fRtp sm st payload).2.2 =
        [Event.decodeError (.rtpUnknownPayloadType pkt.payloadType)]) ∧
    (∀ sf, lookupFormat sm.formats pkt.payloadType = some sf →
      sf.payloadType = pkt.payloadType) := by
  refine ⟨?_, ?_, ?_⟩
  · rintro ⟨sf, hsf⟩
    simp [readRTPUDPRecord, readRTPTCPRecord, hlen, hdec, hsf]
  · intro hnone
    simp [readRTPUDPRecord, readRTPTCPRecord, hlen, hdec, hnone]
  · intro sf hsf
    simp only [lookupFormat] at hsf
    have hp := List.find?_some hsf
    simpa using hp

/-- Witness for C3: payload type 96 registered and dispatched. -/
theorem record_data_dispatch_witness :
    (readRTPUDPRecord (fun _ => some ⟨96⟩) ⟨[⟨96, none⟩], 0⟩ 5 ⟨0, 0, 0⟩
        [0]).1 = true :=
  ((record_data_dispatch (fun _ => some ⟨96⟩) ⟨[⟨96, none⟩], 0⟩ 5 ⟨0, 0, 0⟩
      [0] ⟨96⟩ (by decide) rfl).1 ⟨⟨96, none⟩, by decide⟩).1

/-- C5: when an ingest-role control packet (UDP, or interleaved) decodes
to a list of sub-packets, the read returns `true` and the control-packet
observer fires for every decoded sub-packet in order; for every session
identifier X: if some format's observed identifier equals X, the
correlator returns such a format and that format's report handler fires
exactly once per sender-report sub-packet carrying X; if no format's
observed identifier equals X, the correlator returns `none` and no
report handler fires for X. -/
theorem record_rtcp_correlation
    (fRtcp : List Nat → Option (List RtcpPacket)) (sm : serverSessionMedia)
    (now : Int) (st : ServerSession) (payload : List Nat)
    (packets : List RtcpPacket)
    (hlenU : payload.length ≠ udpMaxPayloadSize + 1)
    (hlenT : ¬payload.length > udpMaxPayloadSize)
    (hdec : fRtcp payload = some packets) :
    (readRTCPUDPRecord fRtcp sm now st payload).1 = true ∧
    (readRTCPTCPRecord fRtcp sm now st payload).1 = true ∧
    (readRTCPUDPRecord fRtcp sm now st payload).2.2.filter
        Event.isOnPacketRTCP = packets.map Event.onPacketRTCP ∧
    (readRTCPTCPRecord fRtcp sm now st payload).2.2.filter
        Event.isOnPacketRTCP = packets.map Event.onPacketRTCP ∧
    (∀ ssrc : Nat,
      ((∃ sf ∈ sm.formats, sf.senderSSRC = some ssrc) →
        ∃ sf, findFormatWithSSRC sm.formats ssrc = some sf ∧
          sf.senderSSRC = some ssrc ∧
          ((readRTCPUDPRecord fRtcp sm now st payload).2.2.filter
              (Event.isReportWith ssrc)).length =
            (packets.filter (RtcpPacket.isSenderReportWith ssrc)).length ∧
          ((readRTCPTCPRecord fRtcp sm now st payload).2.2.filter
              (Event.isReportWith ssrc)).length =
            (packets.filter (RtcpPacket.isSenderReportWith ssrc)).length) ∧
      ((∀ sf ∈ sm.formats, sf.senderSSRC ≠ some ssrc) →
        findFormatWithSSRC sm.formats ssrc = none ∧
        (readRTCPUDPRecord fRtcp sm now st payload).2.2.filter
          (Event.isReportWith ssrc) = [] ∧
        (readRTCPTCPRecord fRtcp sm now st payload).2.2.filter
          (Event.isReportWith ssrc) = [])) := by
  have hU : (readRTCPUDPRecord fRtcp sm now st payload).2.2 =
      packets.flatMap (routeRTCPRecord sm.formats now) := by
    simp [readRTCPUDPRecord, hlenU, hdec]
  have hT : (readRTCPTCPRecord fRtcp sm now st payload).2.2 =
      packets.flatMap (routeRTCPRecord sm.formats now) := by
    simp [readRTCPTCPRecord, hlenT, hdec]
  refine ⟨by simp [readRTCPUDPRecord, hlenU, hdec],
    by simp [readRTCPTCPRecord, hlenT, hdec], ?_, ?_, ?_⟩
  · rw [hU, routeRTCPRecord_filter_onPacketRTCP]
  · rw [hT, routeRTCPRecord_filter_onPacketRTCP]
  · intro ssrc
    constructor
    · intro hex
      obtain ⟨sf, hsf, hssrc⟩ :=
        findFormatWithSSRC_eq_some_of_mem sm.formats ssrc hex
      refine ⟨sf, hsf, hssrc, ?_, ?_⟩
      · rw [hU,
          routeRTCPRecord_filter_reportWith_some sm.formats now ssrc sf hsf]
      · rw [hT,
          routeRTCPRecord_filter_reportWith_some sm.formats now ssrc sf hsf]
    · intro hall
      have hn := findFormatWithSSRC_eq_none_of_forall sm.formats ssrc hall
      refine ⟨hn, ?_, ?_⟩
      · rw [hU,
          routeRTCPRecord_filter_reportWith_none sm.formats now ssrc hn]
      · rw [hT,
          routeRTCPRecord_filter_reportWith_none sm.formats now ssrc hn]

/-- Witness for C5: one sender report with SSRC 7 matched by the format
keyed 96. -/
theorem record_rtcp_correlation_witness :
    (readRTCPUDPRecord (fun _ => some [.senderReport 7, .other 3])
        ⟨[⟨96, some 7⟩], 0⟩ 5 ⟨0, 0, 0⟩ [0]).1 = true :=
  (record_rtcp_correlation (fun _ => some [.senderReport 7, .other 3])
    ⟨[⟨96, some 7⟩], 0⟩ 5 ⟨0, 0, 0⟩ [0] [.senderReport 7, .other 3]
    (by decide) (by decide) rfl).1

end Gortsplib
